import Mathlib

/-!
Shallow embedding of the transcript-acquisition core of the
`youtube-analyzer` repository (Next.js API routes
`src/app/api/analyze/route.ts` and `src/app/api/transcribe-audio/route.ts`).

Strings manipulated by the TypeScript code are modelled as `List Char`;
JavaScript string operations (`trim`, `split`, `substring`, regex
replacement) are translated into executable Lean functions over `List Char`.
Network calls and the subprocess/filesystem environment are modelled as
explicit parameters (oracles) describing what the external world returns.
-/

namespace YtAnalyzer

/-- The characters matched by the JavaScript `\s` regex class (the ones that
can occur in this pipeline: ASCII whitespace plus no-break space). -/
def jsWhitespace (c : Char) : Bool :=
  c = ' ' || c = '\t' || c = '\n' || c = '\r' || c = '\x0b' || c = '\x0c' || c = ' '

/-- JavaScript `String.prototype.trim`: drop leading and trailing whitespace. -/
def trimWs (l : List Char) : List Char :=
  ((l.dropWhile jsWhitespace).reverse.dropWhile jsWhitespace).reverse

/-- JavaScript `Array.prototype.join(' ')`: interleave a single space between
the elements. -/
def joinSpace (xs : List (List Char)) : List Char :=
  List.intercalate [' '] xs

/-- `.replace(/\s+/g, ' ')`: collapse every run of whitespace characters to a
single space (a whitespace character followed by another whitespace character
is dropped; the last of a run becomes one space). -/
def collapseWs : List Char → List Char
  | [] => []
  | [c] => if jsWhitespace c then [' '] else [c]
  | c1 :: c2 :: rest =>
    if jsWhitespace c1 then
      if jsWhitespace c2 then collapseWs (c2 :: rest)
      else ' ' :: collapseWs (c2 :: rest)
    else c1 :: collapseWs (c2 :: rest)

/-- `transcript.length > maxLength` threshold from the routes
(`const maxLength = 15000`). -/
def maxLength : Nat := 15000

/-- The visible truncation marker appended by the routes. -/
def truncationMarker : List Char := "... [truncated]".toList

/-- `transcript.length > maxLength ? transcript.substring(0, maxLength) +
'... [truncated]' : transcript` — the `truncatedTranscript` computation shared
by both API routes. -/
def truncateTranscript (t : List Char) : List Char :=
  if t.length > maxLength then t.take maxLength ++ truncationMarker else t

/-- The JSON success payload of the analyze route:
`{ videoId, transcriptLength, transcriptSource, analysis }`. -/
structure AnalyzeSuccess where
  videoId : List Char
  transcriptLength : Nat
  transcriptSource : String
  analysis : List Char
deriving DecidableEq, Repr

/-- The tail of the analyze route handler once a transcript has been obtained:
truncate, call the language model (`ai`, modelled as an oracle) on the
truncated text, and build the success response reporting the untruncated
length. -/
def postSuccess (ai : List Char → List Char) (videoId transcript : List Char)
    (source : String) : AnalyzeSuccess :=
  { videoId := videoId
    transcriptLength := transcript.length
    transcriptSource := source
    analysis := ai (truncateTranscript transcript) }

/-- The JSON success payload of the transcribe-audio route:
`{ fileName, transcriptLength, transcriptSource, analysis }` with
`transcriptSource: 'audio-upload'`. -/
structure AudioSuccess where
  fileName : List Char
  transcriptLength : Nat
  transcriptSource : String
  analysis : List Char
deriving DecidableEq, Repr

/-- The tail of the transcribe-audio route handler once AssemblyAI has
returned a transcript. -/
def audioPostSuccess (ai : List Char → List Char) (fileName transcript : List Char) :
    AudioSuccess :=
  { fileName := fileName
    transcriptLength := transcript.length
    transcriptSource := "audio-upload"
    analysis := ai (truncateTranscript transcript) }

/-! ## The transcript fallback chain (`POST` handlers of `analyze/route.ts`) -/

/-- One item returned by `YoutubeTranscript.fetchTranscript`; only the `text`
field is used (`item => item.text`). -/
structure TranscriptItem where
  text : List Char
deriving DecidableEq, Repr

/-- `transcriptItems.map(item => item.text).join(' ')`. -/
def joinedCaptions (items : List TranscriptItem) : List Char :=
  joinSpace (items.map TranscriptItem.text)

/-- The error payload `{ error, suggestion?, details? }` returned with an HTTP
status by the analyze route on failure. -/
structure ErrorResponse where
  error : String
  suggestion : Option String
  details : Option String
  status : Nat
deriving DecidableEq, Repr

/-- Outcome of the fallback chain: either a transcript together with the
`transcriptSource` tag, or an error response. -/
inductive ChainResult where
  | ok (transcript : List Char) (source : String)
  | fail (e : ErrorResponse)
deriving DecidableEq, Repr

/-- `if (!transcript || transcript.trim().length === 0)` — the emptiness test
applied to the transcript of the first strategy. -/
def emptyTranscriptCheck (t : List Char) : Bool :=
  t.isEmpty || (trimWs t).isEmpty

/-- The first strategy of both handler versions (`YoutubeTranscript`
captions fetch): on a raised error, or on an empty/whitespace-only joined
transcript, fall through to `fallback`; otherwise succeed with source
`'captions'`. The `npm` oracle is the outcome of the external fetch
(`.error` models a rejected promise). -/
def captionsStep (npm : Except String (List TranscriptItem))
    (fallback : ChainResult) : ChainResult :=
  match npm with
  | .ok items =>
    let t := joinedCaptions items
    if emptyTranscriptCheck t then fallback else .ok t "captions"
  | .error _ => fallback

/-- Second strategy of the yt-dlp handler version: on success tag the source
`'yt-dlp-captions'`; on failure return the aggregate 400 error whose
`details` is the underlying failure message. -/
def ytDlpStep (ytdlp : Except String (List Char)) : ChainResult :=
  match ytdlp with
  | .ok t => .ok t "yt-dlp-captions"
  | .error m =>
    .fail
      { error := "Could not fetch captions for this video. Try uploading the audio file instead."
        suggestion := some "Use the \"Upload Audio\" tab - download the audio locally with yt-dlp, then upload it here."
        details := some m
        status := 400 }

/-- Second strategy of the AssemblyAI handler version: if no API key is
configured, fail immediately with a `suggestion` (and no `details`);
otherwise, on transcription failure, fail with `details` (and no
`suggestion`); on success tag the source `'audio-transcription'`. -/
def assemblyStep (hasKey : Bool) (assembly : Except String (List Char)) :
    ChainResult :=
  if hasKey then
    match assembly with
    | .ok t => .ok t "audio-transcription"
    | .error m =>
      .fail
        { error := "Could not fetch captions or transcribe audio. The video may be restricted or too long."
          suggestion := none
          details := some m
          status := 400 }
  else
    .fail
      { error := "This video has no captions available. Audio transcription requires an AssemblyAI API key to be configured."
        suggestion := some "Try a video with captions enabled, or configure ASSEMBLYAI_API_KEY for audio transcription."
        details := none
        status := 400 }

/-- The fallback chain of the AssemblyAI handler version (first document of
`analyze/route.ts`): captions fetch, then AssemblyAI audio transcription. -/
def chainA (hasKey : Bool) (npm : Except String (List TranscriptItem))
    (assembly : Except String (List Char)) : ChainResult :=
  captionsStep npm (assemblyStep hasKey assembly)

/-- The fallback chain of the yt-dlp handler version (second document of
`analyze/route.ts`): captions fetch, then yt-dlp subtitle extraction. -/
def chainB (npm : Except String (List TranscriptItem))
    (ytdlp : Except String (List Char)) : ChainResult :=
  captionsStep npm (ytDlpStep ytdlp)

/-! ## The identifier extractor (`extractVideoId`) -/

/-- A character excluded from the capture group `([^&\n?#]+)` of the URL
pattern. -/
def isCaptureDelim (c : Char) : Bool :=
  c = '&' || c = '\n' || c = '?' || c = '#'

/-- The three literal alternatives of the non-capturing group
`(?:youtube\.com\/watch\?v=|youtu\.be\/|youtube\.com\/embed\/)`, in the
order the regex engine tries them. -/
def urlMarkers : List (List Char) :=
  ["youtube.com/watch?v=".toList, "youtu.be/".toList, "youtube.com/embed/".toList]

/-- Try one alternative at the current position: the literal must be a prefix
here and must be followed by at least one non-delimiter character; the
capture is the greedy run `([^&\n?#]+)`. -/
def captureAfterMarker (marker s : List Char) : Option (List Char) :=
  if marker.isPrefixOf s then
    let run := (s.drop marker.length).takeWhile (fun c => !isCaptureDelim c)
    if run.isEmpty then none else some run
  else none

/-- Try the alternatives of the non-capturing group in order at the current
position. -/
def tryMarkers : List (List Char) → List Char → Option (List Char)
  | [], _ => none
  | m :: ms, s =>
    match captureAfterMarker m s with
    | some v => some v
    | none => tryMarkers ms s

/-- `url.match(/(?:youtube\.com\/watch\?v=|youtu\.be\/|youtube\.com\/embed\/)([^&\n?#]+)/)`:
an unanchored search, trying every start position left to right and the three
alternatives in order at each position, returning the first capture. -/
def matchUrlPattern : List Char → Option (List Char)
  | [] => none
  | s@(_ :: rest) =>
    match tryMarkers urlMarkers s with
    | some v => some v
    | none => matchUrlPattern rest

/-- A character of the class `[a-zA-Z0-9_-]`. -/
def isIdChar (c : Char) : Bool :=
  c.isAlphanum || c = '_' || c = '-'

/-- `url.match(/^([a-zA-Z0-9_-]{11})$/)`: the anchored bare-identifier
pattern, whose capture is the whole string. -/
def matchBareId (s : List Char) : Option (List Char) :=
  if s.length = 11 && s.all isIdChar then some s else none

/-- The `for (const pattern of patterns)` loop: return the first pattern's
capture, `null` (here `none`) when no pattern matches. -/
def firstMatch : List (List Char → Option (List Char)) → List Char → Option (List Char)
  | [], _ => none
  | p :: ps, s =>
    match p s with
    | some v => some v
    | none => firstMatch ps s

/-- The ordered pattern list of `extractVideoId`: the URL-shaped pattern
first, the bare 11-character pattern second. -/
def patterns : List (List Char → Option (List Char)) :=
  [matchUrlPattern, matchBareId]

/-- `extractVideoId(url)`: first matching pattern's capture, else `null`. -/
def extractVideoId (url : List Char) : Option (List Char) :=
  firstMatch patterns url

/-! ## SRT parsing and normalization (`parseSrtToText`) -/

/-- `srt.split('\n')`. -/
def splitLines : List Char → List (List Char)
  | [] => [[]]
  | c :: rest =>
    let ls := splitLines rest
    if c = '\n' then [] :: ls
    else
      match ls with
      | [] => [[c]]
      | h :: t => (c :: h) :: t

/-- `/^\d+$/.test(trimmed)`: a non-empty all-digit line (an SRT sequence
number). -/
def isDigitsOnly (l : List Char) : Bool :=
  !l.isEmpty && l.all Char.isDigit

/-- Consume exactly `n` digit characters. -/
def matchDigits : Nat → List Char → Option (List Char)
  | 0, l => some l
  | _ + 1, [] => none
  | n + 1, c :: rest => if c.isDigit then matchDigits n rest else none

/-- Consume one timecode `\d{2}:\d{2}:\d{2}[,\.]\d{3}`. -/
def matchTimecode (l : List Char) : Option (List Char) :=
  (matchDigits 2 l).bind fun l1 =>
  (match l1 with
   | ':' :: r => some r
   | _ => none).bind fun l2 =>
  (matchDigits 2 l2).bind fun l3 =>
  (match l3 with
   | ':' :: r => some r
   | _ => none).bind fun l4 =>
  (matchDigits 2 l4).bind fun l5 =>
  (match l5 with
   | c :: r => if c = ',' || c = '.' then some r else none
   | [] => none).bind fun l6 =>
  matchDigits 3 l6

/-- `/^\d{2}:\d{2}:\d{2}[,\.]\d{3}\s*-->\s*\d{2}:\d{2}:\d{2}[,\.]\d{3}$/.test(trimmed)`:
an SRT timestamp line. -/
def isTimestampLine (l : List Char) : Bool :=
  match matchTimecode l with
  | none => false
  | some r1 =>
    let r2 := r1.dropWhile jsWhitespace
    if ['-', '-', '>'].isPrefixOf r2 then
      let r3 := (r2.drop 3).dropWhile jsWhitespace
      match matchTimecode r3 with
      | some [] => true
      | _ => false
    else false

/-- The line filter of `parseSrtToText`: keep a trimmed line unless it is
empty, a sequence number, or a timestamp line. -/
def keepLine (trimmed : List Char) : Bool :=
  !trimmed.isEmpty && !isDigitsOnly trimmed && !isTimestampLine trimmed

/-- Locate, for the non-greedy match `\[.*?\]` begun just after a `[`, the
first `]` (with `.` not crossing a newline); return the remainder after it. -/
def findClose : List Char → Option (List Char)
  | [] => none
  | c :: rest =>
    if c = ']' then some rest
    else if c = '\n' then none
    else findClose rest

theorem length_findClose_le (l rem : List Char) (h : findClose l = some rem) :
    rem.length ≤ l.length := by
  induction l generalizing rem with
  | nil => simp [findClose] at h
  | cons c rest ih =>
    by_cases hc : c = ']'
    · simp only [findClose, hc, if_true, Option.some.injEq] at h
      subst h
      exact Nat.le_succ_of_le (Nat.le_refl _)
    · by_cases hn : c = '\n'
      · simp [findClose, hc, hn] at h
      · simp only [findClose, hc, hn, if_false] at h
        exact Nat.le_succ_of_le (ih rem h)

/-- Recursion worker for `removeBrackets`, bounded by an explicit fuel; the
fuel only has to be at least the input length (each step consumes at least
one character, by `length_findClose_le`), so the `0` case is never reached
from `removeBrackets`. -/
def removeBracketsAux : Nat → List Char → List Char
  | 0, l => l
  | _ + 1, [] => []
  | fuel + 1, c :: rest =>
    if c = '[' then
      match findClose rest with
      | some rem => removeBracketsAux fuel rem
      | none => '[' :: removeBracketsAux fuel rest
    else c :: removeBracketsAux fuel rest

/-- `.replace(/\[.*?\]/g, '')`: delete every non-greedy bracketed group; a
`[` with no matching `]` on the same line is kept and scanning continues. -/
def removeBrackets (l : List Char) : List Char :=
  removeBracketsAux l.length l

/-- `parseSrtToText(srt)`: split into lines, trim each, drop blank lines,
sequence numbers and timestamp lines, join the rest with spaces, then
normalize whitespace, remove bracketed annotations, and trim. -/
def parseSrtToText (srt : List Char) : List Char :=
  let textLines := ((splitLines srt).map trimWs).filter keepLine
  trimWs (removeBrackets (collapseWs (joinSpace textLines)))

/-! ## Filesystem model and `fetchWithYtDlp` -/

/-- The filesystem fragment visible to `fetchWithYtDlp`: an association of
paths to file contents. -/
abbrev FS : Type := List (String × List Char)

/-- Create or overwrite a file. -/
def fsWrite (fs : FS) (p : String) (c : List Char) : FS :=
  (p, c) :: fs

/-- `readFile`: `some` contents, or `none` when the path is absent
(a rejected promise in the source). -/
def fsRead (fs : FS) (p : String) : Option (List Char) :=
  List.lookup p fs

/-- `unlink` with its error swallowed (`catch {}`): remove every entry at the
path; a no-op when the file is absent. -/
def fsRemove (fs : FS) (p : String) : FS :=
  fs.filter (fun e => e.1 ≠ p)

/-- What the external `yt-dlp` invocation did: whether `execAsync` resolved,
and which subtitle file (if any) it wrote — `true` for the primary path
`<tempFile>.en.srt`, `false` for the alternate path `<tempFile>.srt` — with
its contents. -/
structure YtDlpWorld where
  execOk : Bool
  subWrite : Option (Bool × List Char)
deriving Repr

/-- `fetchWithYtDlp(videoId)` as a state transformer on the filesystem,
parameterized by the temp-file stem and the external behavior `w`:
run `yt-dlp` (which may write a subtitle file), read `<tempFile>.en.srt`,
falling back to `<tempFile>.srt`, parse, reject an empty parse, and in the
`finally` block unlink `<tempFile>.en.srt` only, ignoring unlink errors.
Returns the call's outcome and the final filesystem. -/
def fetchWithYtDlp (tempFile : String) (w : YtDlpWorld) (fs : FS) :
    Except String (List Char) × FS :=
  let srtFile := tempFile ++ ".en.srt"
  let altFile := tempFile ++ ".srt"
  let fs1 :=
    match w.subWrite with
    | some (primary, c) => fsWrite fs (if primary then srtFile else altFile) c
    | none => fs
  let body : Except String (List Char) :=
    if w.execOk then
      match
        (match fsRead fs1 srtFile with
         | some c => some c
         | none => fsRead fs1 altFile) with
      | some srtContent =>
        let transcript := parseSrtToText srtContent
        if transcript.isEmpty || (trimWs transcript).isEmpty then
          .error "Empty transcript from yt-dlp"
        else .ok transcript
      | none => .error "subtitle file not found"
    else .error "yt-dlp exec failed"
  (body, fsRemove fs1 srtFile)

/-! ## HTML-entity decoding

The spec's normalization step 1 (repeated HTML-entity decoding) has no
counterpart in the route versions present under `src/`; it belongs to a
route version of this repository that is not included (the UI still knows
its `n8n-rapidapi` source tag). It is therefore modelled from the spec. -/

/-- Numeric value of a hexadecimal digit. -/
def hexVal (c : Char) : Nat :=
  if c.isDigit then c.toNat - '0'.toNat
  else if 'a' ≤ c ∧ c ≤ 'f' then c.toNat - 'a'.toNat + 10
  else if 'A' ≤ c ∧ c ≤ 'F' then c.toNat - 'A'.toNat + 10
  else 0

/-- Whether a character is a hexadecimal digit. -/
def isHexDigit (c : Char) : Bool :=
  c.isDigit || ('a' ≤ c && c ≤ 'f') || ('A' ≤ c && c ≤ 'F')

/-- Numeric value of a digit string (most significant first). -/
def digitsVal (base : Nat) (val : Char → Nat) (ds : List Char) : Nat :=
  ds.foldl (fun acc c => acc * base + val c) 0

/-- Modelled from the spec: recognize one HTML entity immediately after a
`&` — the named forms `&amp; &lt; &gt; &quot; &apos;`, the decimal numeric
form `&#NNN;`, and the hexadecimal form `&#xHH;` — returning the decoded
character and the number of characters consumed after the `&`. -/
def matchEntity (l : List Char) : Option (Char × Nat) :=
  if "amp;".toList.isPrefixOf l then some ('&', 4)
  else if "lt;".toList.isPrefixOf l then some ('<', 3)
  else if "gt;".toList.isPrefixOf l then some ('>', 3)
  else if "quot;".toList.isPrefixOf l then some ('"', 5)
  else if "apos;".toList.isPrefixOf l then some ('\'', 5)
  else
    match l with
    | '#' :: rest1 =>
      match rest1 with
      | 'x' :: rest2 =>
        let ds := rest2.takeWhile isHexDigit
        if ds.isEmpty then none
        else
          match rest2.drop ds.length with
          | ';' :: _ => some (Char.ofNat (digitsVal 16 hexVal ds), ds.length + 3)
          | _ => none
      | _ =>
        let ds := rest1.takeWhile Char.isDigit
        if ds.isEmpty then none
        else
          match rest1.drop ds.length with
          | ';' :: _ => some (Char.ofNat (digitsVal 10 hexVal ds), ds.length + 2)
          | _ => none
    | _ => none

/-- Recursion worker for `decodeEntitiesPass`, bounded by an explicit fuel;
the fuel only has to be at least the input length (each step consumes at
least one character), so the `0` case is never reached from
`decodeEntitiesPass`. -/
def decodeEntitiesAux : Nat → List Char → List Char
  | 0, l => l
  | _ + 1, [] => []
  | fuel + 1, c :: rest =>
    if c = '&' then
      match matchEntity rest with
      | some (d, n) => d :: decodeEntitiesAux fuel (rest.drop n)
      | none => '&' :: decodeEntitiesAux fuel rest
    else c :: decodeEntitiesAux fuel rest

/-- Modelled from the spec: one left-to-right decoding pass, replacing each
recognized entity by its character and not rescanning the replacement within
the same pass. -/
def decodeEntitiesPass (l : List Char) : List Char :=
  decodeEntitiesAux l.length l

/-- Modelled from the spec: apply decoding passes repeatedly until a pass
produces no further change, bounded at two passes (sufficient in practice for
double-encoded text). -/
def decodeHtmlEntities (s : List Char) : List Char :=
  let s1 := decodeEntitiesPass s
  if s1 = s then s else decodeEntitiesPass s1

/-! ## Helper lemmas -/

theorem captionsStep_fallthrough (npm : Except String (List TranscriptItem))
    (fb : ChainResult)
    (h : ∀ items, npm = .ok items → emptyTranscriptCheck (joinedCaptions items) = true) :
    captionsStep npm fb = fb := by
  cases npm with
  | ok items => simp [captionsStep, h items rfl]
  | error m => rfl

theorem captureAfterMarker_ne_nil (marker s v : List Char)
    (h : captureAfterMarker marker s = some v) : v ≠ [] := by
  by_cases hp : marker.isPrefixOf s
  · by_cases he :
      ((s.drop marker.length).takeWhile (fun c => !isCaptureDelim c)).isEmpty
    · simp [captureAfterMarker, hp, he] at h
    · simp only [captureAfterMarker, hp, if_true, he, Bool.false_eq_true,
        if_false, Option.some.injEq] at h
      subst h
      simpa [List.isEmpty_iff] using he
  · simp [captureAfterMarker, hp] at h

theorem tryMarkers_ne_nil (ms : List (List Char)) (s v : List Char)
    (h : tryMarkers ms s = some v) : v ≠ [] := by
  induction ms with
  | nil => simp [tryMarkers] at h
  | cons m rest ih =>
    unfold tryMarkers at h
    cases hm : captureAfterMarker m s with
    | some u =>
      rw [hm] at h
      simp only [Option.some.injEq] at h
      subst h
      exact captureAfterMarker_ne_nil m s _ hm
    | none =>
      rw [hm] at h
      exact ih h

theorem matchUrlPattern_ne_nil (s v : List Char)
    (h : matchUrlPattern s = some v) : v ≠ [] := by
  induction s with
  | nil => simp [matchUrlPattern] at h
  | cons c rest ih =>
    unfold matchUrlPattern at h
    cases hm : tryMarkers urlMarkers (c :: rest) with
    | some u =>
      rw [hm] at h
      simp only [Option.some.injEq] at h
      subst h
      exact tryMarkers_ne_nil _ _ _ hm
    | none =>
      rw [hm] at h
      exact ih h

theorem extractVideoId_eq (s : List Char) :
    extractVideoId s =
      match matchUrlPattern s with
      | some v => some v
      | none => matchBareId s := by
  unfold extractVideoId patterns firstMatch
  cases hm : matchUrlPattern s with
  | some u => rfl
  | none =>
    unfold firstMatch
    cases hb : matchBareId s with
    | some v => rfl
    | none => rfl

theorem matchBareId_spec (s v : List Char) (h : matchBareId s = some v) :
    v = s ∧ v.length = 11 := by
  unfold matchBareId at h
  split at h
  · rename_i hcond
    simp only [Option.some.injEq] at h
    subst h
    refine ⟨rfl, ?_⟩
    have := (Bool.and_eq_true _ _).mp hcond
    simpa using this.1
  · exact absurd h (by simp)

/-! ## Claims -/

/-- C1: whenever the first (direct captions) strategy returns segments whose
texts joined with single spaces are empty or whitespace-only, neither handler
version reports success with that result; both fall through to their second
strategy, and the yt-dlp chain in particular can never report a
`'captions'`-sourced success for that request. -/
theorem C1_empty_captions_falls_through
    (items : List TranscriptItem) (y : Except String (List Char))
    (hasKey : Bool) (a : Except String (List Char))
    (h : trimWs (joinedCaptions items) = []) :
    chainB (.ok items) y = ytDlpStep y ∧
    chainA hasKey (.ok items) a = assemblyStep hasKey a ∧
    ∀ t : List Char, chainB (.ok items) y ≠ .ok t "captions" := by
  have hcheck : emptyTranscriptCheck (joinedCaptions items) = true := by
    simp [emptyTranscriptCheck, h]
  refine ⟨?_, ?_, ?_⟩
  · simp [chainB, captionsStep, hcheck]
  · simp [chainA, captionsStep, hcheck]
  · intro t
    simp only [chainB, captionsStep, hcheck, if_true]
    cases y with
    | ok u => simp [ytDlpStep]
    | error m => simp [ytDlpStep]

/-- C1 witness: the spec's example, segments `["", " "]`, joins and trims to
empty, and the chain proceeds to the second strategy. -/
theorem C1_witness :
    trimWs (joinedCaptions [⟨"".toList⟩, ⟨" ".toList⟩]) = [] ∧
    (chainB (.ok [⟨"".toList⟩, ⟨" ".toList⟩]) (.error "e") = ytDlpStep (.error "e") ∧
     chainA false (.ok [⟨"".toList⟩, ⟨" ".toList⟩]) (.error "x") = assemblyStep false (.error "x") ∧
     ∀ t : List Char,
       chainB (.ok [⟨"".toList⟩, ⟨" ".toList⟩]) (.error "e") ≠ .ok t "captions") :=
  ⟨by decide, C1_empty_captions_falls_through _ _ _ _ (by decide)⟩

/-- C2: a transcript longer than 15,000 characters is forwarded to the
language-model call as exactly its first 15,000 characters followed by the
visible marker `'... [truncated]'`, while the response's `transcriptLength`
is the untruncated length. -/
theorem C2_truncation (ai : List Char → List Char) (videoId t : List Char)
    (source : String) (h : 15000 < t.length) :
    truncateTranscript t = t.take 15000 ++ truncationMarker ∧
    (postSuccess ai videoId t source).analysis =
      ai (t.take 15000 ++ truncationMarker) ∧
    (postSuccess ai videoId t source).transcriptLength = t.length := by
  have hgt : t.length > maxLength := h
  have htr : truncateTranscript t = t.take 15000 ++ truncationMarker := by
    rw [truncateTranscript, if_pos hgt]; rfl
  exact ⟨htr, by simp [postSuccess, htr], rfl⟩

/-- C2 witness: a 20,000-character transcript is truncated to 15,000
characters plus the marker, and the reported length stays 20,000. -/
theorem C2_witness :
    15000 < (List.replicate 20000 'a').length ∧
    (truncateTranscript (List.replicate 20000 'a') =
       (List.replicate 20000 'a').take 15000 ++ truncationMarker ∧
     (postSuccess id [] (List.replicate 20000 'a') "captions").analysis =
       id ((List.replicate 20000 'a').take 15000 ++ truncationMarker) ∧
     (postSuccess id [] (List.replicate 20000 'a') "captions").transcriptLength =
       (List.replicate 20000 'a').length) :=
  ⟨by simp only [List.length_replicate]; decide,
   C2_truncation id [] (List.replicate 20000 'a') "captions"
     (by simp only [List.length_replicate]; decide)⟩

/-- C3: the claim says every temporary subtitle file created by the
subtitle-download strategy is absent after the call returns, but the
`finally` block unlinks only `<tempFile>.en.srt`; when yt-dlp writes the
alternate file `<tempFile>.srt` (the very path the route falls back to
reading), the call succeeds and that file is still present afterwards,
while the primary path is indeed absent. -/
theorem C3_alt_subtitle_file_left_behind :
    (fetchWithYtDlp "t" ⟨true, some (false, "hello world".toList)⟩ []).1 =
      .ok "hello world".toList ∧
    fsRead (fetchWithYtDlp "t" ⟨true, some (false, "hello world".toList)⟩ []).2
      "t.srt" = some "hello world".toList ∧
    fsRead (fetchWithYtDlp "t" ⟨true, some (true, "hello world".toList)⟩ []).2
      "t.en.srt" = none := ⟨rfl, rfl, rfl⟩

/-- C4 counterexample: in the AssemblyAI handler version, when the captions
fetch raises and the transcription strategy fails with message `'boom'`, the
aggregate 400 failure carries `details = 'boom'` but NO `suggestion` field,
contradicting the claim that every all-strategies-failed response carries a
non-empty suggestion. -/
theorem C4_counterexample :
    chainA true (.error "fetch failed") (.error "boom") =
      .fail
        { error := "Could not fetch captions or transcribe audio. The video may be restricted or too long."
          suggestion := none
          details := some "boom"
          status := 400 } := by rfl

/-- C4 amended: when every strategy fails, the operation fails with a
400-class error whose `details` is the last underlying failure's message in
both variants that attempt a second strategy; but only the yt-dlp variant
also carries a non-empty `suggestion`, while the AssemblyAI variant carries a
suggestion only on its skip path (missing API key), where `details` is
absent. -/
theorem C4_amended (npm : Except String (List TranscriptItem)) (m : String)
    (a : Except String (List Char))
    (h : ∀ items, npm = .ok items → emptyTranscriptCheck (joinedCaptions items) = true) :
    chainB npm (.error m) =
      .fail
        { error := "Could not fetch captions for this video. Try uploading the audio file instead."
          suggestion := some "Use the \"Upload Audio\" tab - download the audio locally with yt-dlp, then upload it here."
          details := some m
          status := 400 } ∧
    chainA true npm (.error m) =
      .fail
        { error := "Could not fetch captions or transcribe audio. The video may be restricted or too long."
          suggestion := none
          details := some m
          status := 400 } ∧
    chainA false npm a =
      .fail
        { error := "This video has no captions available. Audio transcription requires an AssemblyAI API key to be configured."
          suggestion := some "Try a video with captions enabled, or configure ASSEMBLYAI_API_KEY for audio transcription."
          details := none
          status := 400 } ∧
    "Use the \"Upload Audio\" tab - download the audio locally with yt-dlp, then upload it here." ≠ "" := by
  refine ⟨?_, ?_, ?_, by decide⟩
  · rw [chainB, captionsStep_fallthrough npm _ h]; rfl
  · rw [chainA, captionsStep_fallthrough npm _ h]; rfl
  · rw [chainA, captionsStep_fallthrough npm _ h]; rfl

/-- C4 witness: both strategies raising concrete errors. -/
theorem C4_witness :
    chainB (.error "fetch failed") (.error "boom") =
      .fail
        { error := "Could not fetch captions for this video. Try uploading the audio file instead."
          suggestion := some "Use the \"Upload Audio\" tab - download the audio locally with yt-dlp, then upload it here."
          details := some "boom"
          status := 400 } ∧
    chainA true (.error "fetch failed") (.error "boom") =
      .fail
        { error := "Could not fetch captions or transcribe audio. The video may be restricted or too long."
          suggestion := none
          details := some "boom"
          status := 400 } ∧
    chainA false (.error "fetch failed") (.error "boom") =
      .fail
        { error := "This video has no captions available. Audio transcription requires an AssemblyAI API key to be configured."
          suggestion := some "Try a video with captions enabled, or configure ASSEMBLYAI_API_KEY for audio transcription."
          details := none
          status := 400 } ∧
    "Use the \"Upload Audio\" tab - download the audio locally with yt-dlp, then upload it here." ≠ "" := by
  have := C4_amended (.error "fetch failed") "boom" (.error "boom")
    (fun items hcontra => nomatch hcontra)
  exact this

/-- C5 counterexample: the normalization collapses whitespace BEFORE removing
bracketed annotations, so `"Hello [Music] world"` normalizes to
`"Hello  world"` with a double space, not to `"Hello world"` as claimed. -/
theorem C5_counterexample :
    parseSrtToText "Hello [Music] world".toList = "Hello  world".toList ∧
    "Hello  world".toList ≠ "Hello world".toList := by decide

/-- C5 amended: only the subtitle-download strategy normalizes its
transcript — the direct-captions strategy succeeds with the space-joined
segment texts unchanged — and that normalization removes bracketed
annotations after collapsing whitespace, so `"Hello [Music] world"`
normalizes to `"Hello  world"` (double space). -/
theorem C5_amended (items : List TranscriptItem) (y : Except String (List Char))
    (h : emptyTranscriptCheck (joinedCaptions items) = false) :
    chainB (.ok items) y = .ok (joinedCaptions items) "captions" ∧
    parseSrtToText "Hello [Music] world".toList = "Hello  world".toList := by
  constructor
  · simp [chainB, captionsStep, h]
  · decide

/-- C5 witness: a captions fetch returning the single segment
`"Hello [Music] world"` succeeds with that exact text, brackets included. -/
theorem C5_witness :
    emptyTranscriptCheck (joinedCaptions [⟨"Hello [Music] world".toList⟩]) = false ∧
    (chainB (.ok [⟨"Hello [Music] world".toList⟩]) (.error "e") =
       .ok (joinedCaptions [⟨"Hello [Music] world".toList⟩]) "captions" ∧
     parseSrtToText "Hello [Music] world".toList = "Hello  world".toList) :=
  ⟨by decide, C5_amended [⟨"Hello [Music] world".toList⟩] (.error "e") (by decide)⟩

/-- C6: (modelled from the spec) HTML-entity decoding is applied repeatedly
until a pass produces no further change, two passes sufficing for
double-encoded text: `"AT&amp;amp;T"` decodes to `"AT&T"`, on which a
further pass is a fixpoint; numeric, hexadecimal and named forms are all
decoded. -/
theorem C6_entity_decoding :
    decodeHtmlEntities "AT&amp;amp;T".toList = "AT&T".toList ∧
    decodeEntitiesPass "AT&T".toList = "AT&T".toList ∧
    decodeHtmlEntities "A&#66;&#x43;&quot;D&lt;".toList = "ABC\"D<".toList := by
  decide

/-- C7: the extractor consults the URL-shaped pattern before the bare
11-character pattern, returns the first match, and fails when neither
matches; a bare string is accepted via the second pattern only when the URL
pattern does not match. -/
theorem C7_pattern_priority (s : List Char) :
    (∀ v, matchUrlPattern s = some v → extractVideoId s = some v) ∧
    (matchUrlPattern s = none → extractVideoId s = matchBareId s) ∧
    (matchUrlPattern s = none → matchBareId s = none → extractVideoId s = none) ∧
    (∀ v, matchUrlPattern s = none → matchBareId s = some v →
       v = s ∧ extractVideoId s = some s) := by
  refine ⟨?_, ?_, ?_, ?_⟩
  · intro v hv
    rw [extractVideoId_eq, hv]
  · intro hn
    rw [extractVideoId_eq, hn]
  · intro hn hb
    rw [extractVideoId_eq, hn, hb]
  · intro v hn hb
    obtain ⟨hvs, _⟩ := matchBareId_spec s v hb
    subst hvs
    exact ⟨rfl, by rw [extractVideoId_eq, hn, hb]⟩

/-- C7 witness: a watch-URL is resolved by the URL pattern, and a bare
11-character identifier — on which the URL pattern fails — is resolved by
the bare pattern. -/
theorem C7_witness :
    matchUrlPattern "https://www.youtube.com/watch?v=dQw4w9WgXcQ&t=1".toList =
      some "dQw4w9WgXcQ".toList ∧
    extractVideoId "https://www.youtube.com/watch?v=dQw4w9WgXcQ&t=1".toList =
      some "dQw4w9WgXcQ".toList ∧
    matchUrlPattern "dQw4w9WgXcQ".toList = none ∧
    extractVideoId "dQw4w9WgXcQ".toList = matchBareId "dQw4w9WgXcQ".toList :=
  ⟨by decide,
   (C7_pattern_priority _).1 _ (by decide),
   by decide,
   (C7_pattern_priority _).2.1 (by decide)⟩

/-- C8 counterexample: the URL pattern's capture group `([^&\n?#]+)` accepts
any non-empty run, so `extractVideoId` returns the 3-character identifier
`"abc"` for `"https://youtu.be/abc"`, contradicting the claim that a
returned identifier is always 11 characters. -/
theorem C8_counterexample :
    extractVideoId "https://youtu.be/abc".toList = some "abc".toList ∧
    ("abc".toList).length ≠ 11 := by decide

/-- C8 amended: the extractor either rejects the input or returns a
non-empty identifier; only when the URL-shaped pattern does not match is the
result guaranteed to be the whole 11-character input — an identifier
captured by the URL pattern may have any non-zero length. -/
theorem C8_amended (s v : List Char) (h : extractVideoId s = some v) :
    v ≠ [] ∧ (matchUrlPattern s = none → v = s ∧ v.length = 11) := by
  rw [extractVideoId_eq] at h
  cases hm : matchUrlPattern s with
  | some u =>
    rw [hm] at h
    simp only [Option.some.injEq] at h
    subst h
    exact ⟨matchUrlPattern_ne_nil s _ hm, fun hc => absurd hc (by simp)⟩
  | none =>
    rw [hm] at h
    obtain ⟨hvs, hlen⟩ := matchBareId_spec s v h
    refine ⟨?_, fun _ => ⟨hvs, hlen⟩⟩
    intro hnil
    rw [hnil] at hlen
    simp at hlen

/-- C8 amended witness: a bare 11-character input reaches the bare pattern
and is returned whole. -/
theorem C8_witness :
    extractVideoId "dQw4w9WgXcQ".toList = some "dQw4w9WgXcQ".toList ∧
    ("dQw4w9WgXcQ".toList ≠ [] ∧
     (matchUrlPattern "dQw4w9WgXcQ".toList = none →
        "dQw4w9WgXcQ".toList = "dQw4w9WgXcQ".toList ∧
        ("dQw4w9WgXcQ".toList).length = 11)) :=
  ⟨by decide, C8_amended "dQw4w9WgXcQ".toList "dQw4w9WgXcQ".toList (by decide)⟩

/-- C9 counterexample: when the captions fetch fails and yt-dlp succeeds, the
success response's `transcriptSource` is `'yt-dlp-captions'`, which is not
among the five values the claim allows. -/
theorem C9_counterexample :
    chainB (.error "no captions") (.ok "hi".toList) =
      .ok "hi".toList "yt-dlp-captions" ∧
    "yt-dlp-captions" ∉
      ["captions", "fallback-api", "subtitle-download", "audio-transcription",
       "audio-upload"] := by decide

/-- C9 amended: every successful outcome of the handler versions under
`src/` carries a `transcriptSource` among `'captions'`, `'yt-dlp-captions'`,
`'audio-transcription'` and `'audio-upload'`. -/
theorem C9_amended (hasKey : Bool) (npm : Except String (List TranscriptItem))
    (a y : Except String (List Char)) (t : List Char) (s : String)
    (ai : List Char → List Char) (fn tr : List Char) :
    (chainA hasKey npm a = .ok t s →
       s ∈ ["captions", "yt-dlp-captions", "audio-transcription", "audio-upload"]) ∧
    (chainB npm y = .ok t s →
       s ∈ ["captions", "yt-dlp-captions", "audio-transcription", "audio-upload"]) ∧
    (audioPostSuccess ai fn tr).transcriptSource ∈
      ["captions", "yt-dlp-captions", "audio-transcription", "audio-upload"] := by
  refine ⟨?_, ?_, by simp [audioPostSuccess]⟩
  · intro h
    unfold chainA captionsStep at h
    cases npm with
    | ok items =>
      by_cases hc : emptyTranscriptCheck (joinedCaptions items) = true
      · simp only [hc, if_true] at h
        unfold assemblyStep at h
        cases hasKey <;> cases a <;> simp_all
      · simp only [if_neg hc] at h
        cases h
        simp
    | error m =>
      unfold assemblyStep at h
      cases hasKey <;> cases a <;> simp_all
  · intro h
    unfold chainB captionsStep at h
    cases npm with
    | ok items =>
      by_cases hc : emptyTranscriptCheck (joinedCaptions items) = true
      · simp only [hc, if_true] at h
        unfold ytDlpStep at h
        cases y <;> simp_all
      · simp only [if_neg hc] at h
        cases h
        simp
    | error m =>
      unfold ytDlpStep at h
      cases y <;> simp_all

/-- C9 amended witness: a concrete yt-dlp success has its source in the
amended set. -/
theorem C9_witness :
    chainB (.error "e") (.ok "hi".toList) = .ok "hi".toList "yt-dlp-captions" ∧
    "yt-dlp-captions" ∈
      ["captions", "yt-dlp-captions", "audio-transcription", "audio-upload"] :=
  ⟨by rfl,
   (C9_amended true (.error "e") (.error "x") (.ok "hi".toList) "hi".toList
      "yt-dlp-captions" id [] []).2.1 (by rfl)⟩

/-- C10: a transcript of exactly 15,000 characters is not truncated — the
strict `>` comparison leaves it unchanged, with no marker appended, and the
language model receives it verbatim. -/
theorem C10_no_truncation_at_bound (ai : List Char → List Char)
    (videoId t : List Char) (source : String) (h : t.length = 15000) :
    truncateTranscript t = t ∧
    (postSuccess ai videoId t source).analysis = ai t := by
  have hle : ¬ t.length > maxLength := by simp [maxLength, h]
  constructor
  · simp [truncateTranscript, hle]
  · simp [postSuccess, truncateTranscript, hle]

/-- C10 witness: a 15,000-character transcript passes through untouched. -/
theorem C10_witness :
    (List.replicate 15000 'a').length = 15000 ∧
    (truncateTranscript (List.replicate 15000 'a') = List.replicate 15000 'a' ∧
     (postSuccess id [] (List.replicate 15000 'a') "captions").analysis =
       id (List.replicate 15000 'a')) :=
  ⟨by simp only [List.length_replicate],
   C10_no_truncation_at_bound id [] (List.replicate 15000 'a') "captions"
     (by simp only [List.length_replicate])⟩

end YtAnalyzer
